import Mathlib

/-!
Verification of the palette state machine and color codec of
`colordropper.py` (ahuang11/colordropper).

The palette logic of the dashboard is embedded shallowly:

* numbers that are Python floats in the source are modelled as exact
  rationals (`ℚ`); Python `int` is `ℤ`/`ℕ`;
* the widget state relevant to the palette (`multi_select.options` and the
  module-level `previous_selections` list) becomes the structure `AppState`;
  the rendering side effects of `update` (swatch row markup, plot panes,
  markdown) are out of scope and not part of the state;
* an operation that can raise an uncaught Python exception is modelled with
  `Option`, where `none` is the raised exception;
* the undo stack `previous_selections` (Python list used via `append` /
  `pop(-1)`, i.e. LIFO at the tail) is modelled as a `List` whose *head* is
  the top of the stack.
-/

/-- Python `int(q)` truncation toward zero, on an exact rational. -/
def pyTrunc (q : ℚ) : ℤ := if 0 ≤ q then ⌊q⌋ else ⌈q⌉

/-- `clamp` from colordropper.py: `int(max(0, min(x, 255)))`. -/
def clamp (x : ℚ) : ℤ := pyTrunc (max 0 (min x 255))

/-- Lowercase hexadecimal digit of a value below 16 (`48 = '0'`, `87 + 10 = 'a'`),
as produced by Python's `x` format spec. -/
def toHexDigit (n : ℕ) : Char := if n < 10 then Char.ofNat (48 + n) else Char.ofNat (87 + n)

/-- Two lowercase hex digits for an integer in [0, 255]; models `'{0:02x}'.format(n)`
on the range `clamp` produces (where the result is always exactly two digits). -/
def toHex2 (n : ℤ) : List Char := [toHexDigit (n.toNat / 16), toHexDigit (n.toNat % 16)]

/-- `rgb_to_hexcode` from colordropper.py: optional scaling by 255 (`to_255`),
then each channel clamped and formatted as two lowercase hex digits after `#`. -/
def rgb_to_hexcode (r g b : ℚ) (to_255 : Bool) : String :=
  let r := if to_255 then r * 255 else r
  let g := if to_255 then g * 255 else g
  let b := if to_255 then b * 255 else b
  String.mk ('#' :: (toHex2 (clamp r) ++ toHex2 (clamp g) ++ toHex2 (clamp b)))

/-- Python banker's rounding `round(q)`: nearest integer, ties to even. -/
def pyRound (q : ℚ) : ℤ :=
  let f := ⌊q⌋
  let r := q - (f : ℚ)
  if r < 1 / 2 then f
  else if 1 / 2 < r then f + 1
  else if f % 2 = 0 then f else f + 1

/-- Python `round(q, 4)`: rounding to four decimal places (ties to even). -/
def pyRound4 (q : ℚ) : ℚ := (pyRound (q * 10000) : ℚ) / 10000

/-- ASCII whitespace accepted (stripped) by Python's `int(s, 16)`. -/
def isPyWS (c : Char) : Bool :=
  c == ' ' || c == '\t' || c == '\n' || c == '\x0b' || c == '\x0c' || c == '\r'

/-- Strip leading and trailing whitespace from a character list. -/
def stripWS (l : List Char) : List Char :=
  ((l.dropWhile isPyWS).reverse.dropWhile isPyWS).reverse

/-- Value of a single hexadecimal digit (`0-9`, `a-f`, `A-F`), as accepted by
Python's `int(s, 16)`. -/
def hexDigitVal (c : Char) : Option ℕ :=
  if 48 ≤ c.toNat ∧ c.toNat ≤ 57 then some (c.toNat - 48)
  else if 97 ≤ c.toNat ∧ c.toNat ≤ 102 then some (c.toNat - 87)
  else if 65 ≤ c.toNat ∧ c.toNat ≤ 70 then some (c.toNat - 55)
  else none

/-- Whether `c` is a hexadecimal digit (either case). -/
def isHexDigitChar (c : Char) : Bool := (hexDigitVal c).isSome

/-- Base-16 value of a nonempty all-hex-digit string; `none` otherwise. -/
def parseHexDigits (l : List Char) : Option ℕ :=
  if l ≠ [] ∧ l.all isHexDigitChar then
    some (l.foldl (fun a c => a * 16 + (hexDigitVal c).getD 0) 0)
  else none

/-- Models Python's `int(s, 16)` on the short slices `hexcode_to_rgb` feeds it:
surrounding whitespace is stripped, an optional single sign is accepted, then a
nonempty run of hex digits.  (Underscore separators and the `0x` prefix, which
Python also accepts, cannot occur inside a slice of length at most 2, the only
way the palette code calls this.) -/
def pyIntHexCore : List Char → Option ℤ
  | [] => none
  | c :: rest =>
    if c = '+' then (parseHexDigits rest).map (fun n => (n : ℤ))
    else if c = '-' then (parseHexDigits rest).map (fun n => -(n : ℤ))
    else (parseHexDigits (c :: rest)).map (fun n => (n : ℤ))

def pyIntHex (l : List Char) : Option ℤ := pyIntHexCore (stripWS l)

/-- Python slice `l[i:j]` for `0 ≤ i ≤ j`. -/
def pySlice (l : List Char) (i j : ℕ) : List Char := (l.drop i).take (j - i)

/-- `hexcode.lstrip('#')`: all leading `#` characters removed. -/
def hexStrip (s : String) : List Char := s.data.dropWhile (fun c => c == '#')

/-- `hexcode_to_rgb` from colordropper.py.  The source builds the three channel
values with `int(code[i:i+2], 16)` for `i` in `(0, 2, 4)` and stringifies the
tuple for display; the embedding returns the tuple of values, with `none`
standing for the `ValueError` a failed `int` call raises.  With `norm` set,
each channel is `round(v / 255, 4)`. -/
def hexcode_to_rgb (hexcode : String) (norm : Bool) : Option (ℚ × ℚ × ℚ) :=
  let code := hexStrip hexcode
  match pyIntHex (pySlice code 0 2), pyIntHex (pySlice code 2 4), pyIntHex (pySlice code 4 6) with
  | some v1, some v2, some v3 =>
    if norm then
      some (pyRound4 ((v1 : ℚ) / 255), pyRound4 ((v2 : ℚ) / 255), pyRound4 ((v3 : ℚ) / 255))
    else some ((v1 : ℚ), (v2 : ℚ), (v3 : ℚ))
  | _, _, _ => none

/-- The palette-relevant widget state: `multi_select.options` (the Palette) and
the module-level `previous_selections` undo stack (top at the head). -/
structure AppState where
  options : List String
  prevSelections : List (List String)
deriving DecidableEq

/-- The validity filter of `update` in colordropper.py:
`opt != '' and len(opt) == 7 and opt.startswith('#')`. -/
def validOpt (opt : String) : Bool :=
  !(opt == "") && opt.length == 7 && opt.startsWith "#"

/-- The list comprehension at the top of `update`. -/
def filterOptions (options : List String) : List String := options.filter validOpt

/-- `update` from colordropper.py, restricted to the palette state it mutates:
it replaces `multi_select.options` with the filtered options.  (The rest of
`update` recomputes render projections and does not touch the undo stack.) -/
def update (options : List String) (s : AppState) : AppState :=
  { s with options := filterOptions options }

/-- `text_input_update` from colordropper.py: split the raw text on commas,
strip each piece, and call `update`.  Note: it does not push onto
`previous_selections`. -/
def text_input_update (raw : String) (s : AppState) : AppState :=
  update ((raw.splitOn ",").map (fun color => color.trim)) s

/-- The decoded image grid (`base_ds` / `image_pane.object.data`): per-channel
pixel values indexed by `(Y, X)`. -/
structure Dataset where
  nx : ℕ
  ny : ℕ
  R : ℕ → ℕ → ℚ
  G : ℕ → ℕ → ℚ
  B : ℕ → ℕ → ℚ

/-- Integer indexing along one axis with numpy/xarray negative-index
wrap-around; `none` is an `IndexError`. -/
def normIdx (n : ℕ) (i : ℤ) : Option ℕ :=
  if 0 ≤ i ∧ i < (n : ℤ) then some i.toNat
  else if -(n : ℤ) ≤ i ∧ i < 0 then some (i + n).toNat
  else none

/-- `ds.isel(X=x, Y=y)` followed by reading the three channels; `none` models
the `AttributeError`/`IndexError` paths of `tap_update` (no dataset available,
or an index outside the grid). -/
def sampleAt (ods : Option Dataset) (x y : ℤ) : Option (ℚ × ℚ × ℚ) :=
  match ods with
  | none => none
  | some ds =>
    match normIdx ds.nx x, normIdx ds.ny y with
    | some i, some j => some (ds.R j i, ds.G j i, ds.B j i)
    | _, _ => none

/-- `tap_update` from colordropper.py: push the current options onto
`previous_selections`, then try to sample the clicked pixel; on success append
the sampled hexcode and `update`, on failure (caught `AttributeError` /
`IndexError`) print and leave the palette as it was. -/
def tap_update (ds : Option Dataset) (x y : ℚ) (s : AppState) : AppState :=
  let s1 : AppState := { s with prevSelections := s.options :: s.prevSelections }
  match sampleAt ds (pyRound x) (pyRound y) with
  | some (r, g, b) => update (s1.options ++ [rgb_to_hexcode r g b false]) s1
  | none => s1

/-- `remove_update` from colordropper.py: push the current options, then keep
the options not currently selected in the widget. -/
def remove_update (selected : List String) (s : AppState) : AppState :=
  let s1 : AppState := { s with prevSelections := s.options :: s.prevSelections }
  update (s1.options.filter (fun v => !(selected.contains v))) s1

/-- `undo_update` from colordropper.py: `previous_selections.pop(-1)` followed
by `update`; popping the empty list raises `IndexError`, modelled as `none`. -/
def undo_update (s : AppState) : Option AppState :=
  match s.prevSelections with
  | [] => none
  | p :: rest => some (update p { s with prevSelections := rest })

/-- `clear_update` from colordropper.py: push the current options, then
`update([])`. -/
def clear_update (s : AppState) : AppState :=
  let s1 : AppState := { s with prevSelections := s.options :: s.prevSelections }
  update [] s1

/-- One-dimensional piecewise-linear interpolation through the sample points
`xys` (strictly increasing abscissas), as `np.interp` computes it on the
in-range arguments the colormap lookup uses. -/
def interp1 : List (ℚ × ℚ) → ℚ → ℚ
  | [], _ => 0
  | [(_, y1)], _ => y1
  | (x1, y1) :: (x2, y2) :: rest, t =>
    if t ≤ x2 then y1 + (t - x1) * (y2 - y1) / (x2 - x1)
    else interp1 ((x2, y2) :: rest) t

/-- `np.linspace(0, 1, m)`: the anchor positions matplotlib assigns to a color
list given to `LinearSegmentedColormap.from_list`. -/
def anchorPositions (m : ℕ) : List ℚ :=
  (List.range m).map (fun j => (j : ℚ) / ((m : ℚ) - 1))

/-- Modelled from matplotlib: the `n`-entry lookup table of
`LinearSegmentedColormap.from_list('interp_cmap', anchors, n)`, whose entry `k`
is the piecewise-linear interpolation of the anchors (evenly spaced along
[0, 1]) evaluated at `k / (n - 1)`; `interp_cmap(i)` for integer `i` reads
entry `i` of this table. -/
def lutColors (anchors : List (ℚ × ℚ × ℚ)) (n : ℕ) : List (ℚ × ℚ × ℚ) :=
  let xs := anchorPositions anchors.length
  let rs := xs.zip (anchors.map (fun a => a.1))
  let gs := xs.zip (anchors.map (fun a => a.2.1))
  let bs := xs.zip (anchors.map (fun a => a.2.2))
  (List.range n).map (fun k =>
    let t := (k : ℚ) / ((n : ℚ) - 1)
    (interp1 rs t, interp1 gs t, interp1 bs t))

/-- Modelled from matplotlib's `to_rgb` on a valid `#rrggbb` string: each hex
pair divided by 255.  Palette entries reaching the colormap are parsed this
way; the `(0, 0, 0)` fallback is unreachable for them. -/
def parseAnchorRGB (hex : String) : ℚ × ℚ × ℚ :=
  match hexcode_to_rgb hex false with
  | some (r, g, b) => (r / 255, g / 255, b / 255)
  | none => (0, 0, 0)

/-- The `interp_colors` computation of `slider_update` in colordropper.py: the
slider value is bumped up to the number of options, a single option is
duplicated into two anchors, and with a nonempty palette the lookup table of
the interpolated colormap is re-encoded through
`rgb_to_hexcode(..., to_255=True)`; with an empty palette the (empty) options
pass through. -/
def slider_interp_colors (options : List String) (sliderValue : ℕ) : List String :=
  let numOptions := options.length
  let numColors := max sliderValue numOptions
  let anchors := if numOptions == 1 then options ++ options else options
  if 0 < numOptions then
    (lutColors (anchors.map parseAnchorRGB) numColors).map
      (fun c => rgb_to_hexcode c.1 c.2.1 c.2.2 true)
  else options

/-- Follows the spec's words only (for comparison with the code's filter):
a Hexcode is `#` followed by exactly six lowercase hexadecimal digits,
the pattern written `#[0-9a-f]\x7b6\x7d` in the spec. -/
def spec_hex_shape (s : String) : Bool :=
  match s.data with
  | '#' :: rest =>
    rest.length == 6 &&
      rest.all (fun c => (48 ≤ c.toNat && c.toNat ≤ 57) || (97 ≤ c.toNat && c.toNat ≤ 102))
  | _ => false

/-! ## Helper lemmas -/

lemma filterOptions_eq_self (l : List String) (h : l.all validOpt = true) :
    filterOptions l = l :=
  List.filter_eq_self.mpr (List.all_eq_true.mp h)

lemma toHexDigit_ne_hash_fin : ∀ k : Fin 16, (toHexDigit k.val == '#') = false := by decide

set_option maxRecDepth 4000 in
lemma pyIntHex_toHex2 : ∀ n : Fin 256, pyIntHex (toHex2 (n.val : ℤ)) = some (n.val : ℤ) := by
  decide

lemma clamp_natCast (n : ℕ) (h : n ≤ 255) : clamp (n : ℚ) = (n : ℤ) := by
  unfold clamp pyTrunc
  rw [min_eq_left (by exact_mod_cast h), max_eq_right (Nat.cast_nonneg n),
    if_pos (Nat.cast_nonneg n)]
  exact Int.floor_natCast n

lemma dropWhile_hash_cons (a : Char) (l : List Char) (h : (a == '#') = false) :
    List.dropWhile (fun c => c == '#') ('#' :: a :: l) = a :: l := by
  rw [List.dropWhile_cons, List.dropWhile_cons]
  simp [h]

lemma hex_char_ge (c : Char) (h : isHexDigitChar c = true) : 48 ≤ c.toNat := by
  simp only [isHexDigitChar, hexDigitVal] at h
  split_ifs at h with h1 h2 h3
  · omega
  · omega
  · omega
  · exact absurd h (by simp)

lemma hex_not_ws (c : Char) (h : isHexDigitChar c = true) : isPyWS c = false := by
  have h48 := hex_char_ge c h
  simp only [isPyWS, Bool.or_eq_false_iff, beq_eq_false_iff_ne]
  refine ⟨⟨⟨⟨⟨?_, ?_⟩, ?_⟩, ?_⟩, ?_⟩, ?_⟩ <;> (rintro rfl; exact absurd h48 (by decide))

lemma hex_not_sign (c : Char) (h : isHexDigitChar c = true) : c ≠ '+' ∧ c ≠ '-' := by
  have h48 := hex_char_ge c h
  constructor <;> (rintro rfl; exact absurd h48 (by decide))

lemma dropWhileWS_eq_self (l : List Char) (h : l.all isHexDigitChar = true) :
    l.dropWhile isPyWS = l := by
  cases l with
  | nil => rfl
  | cons c t =>
    have hc : isHexDigitChar c = true := by
      simp only [List.all_cons, Bool.and_eq_true] at h
      exact h.1
    rw [List.dropWhile_cons, if_neg (by simp [hex_not_ws c hc])]

lemma stripWS_eq_self (l : List Char) (h : l.all isHexDigitChar = true) : stripWS l = l := by
  unfold stripWS
  rw [dropWhileWS_eq_self l h, dropWhileWS_eq_self l.reverse (by simpa using h),
    List.reverse_reverse]

lemma pyIntHex_hex_isSome (l : List Char) (h : l.all isHexDigitChar = true) (hne : l ≠ []) :
    (pyIntHex l).isSome = true := by
  unfold pyIntHex
  rw [stripWS_eq_self l h]
  cases l with
  | nil => exact absurd rfl hne
  | cons c t =>
    have hc : isHexDigitChar c = true := by
      simp only [List.all_cons, Bool.and_eq_true] at h
      exact h.1
    have hsign := hex_not_sign c hc
    simp only [pyIntHexCore]
    rw [if_neg hsign.1, if_neg hsign.2]
    unfold parseHexDigits
    rw [if_pos ⟨List.cons_ne_nil c t, h⟩]
    simp

lemma pyIntHex_nil : pyIntHex [] = none := rfl

lemma pySlice_all_hex (l : List Char) (i j : ℕ) (h : l.all isHexDigitChar = true) :
    (pySlice l i j).all isHexDigitChar = true :=
  List.all_eq_true.mpr fun a ha =>
    List.all_eq_true.mp h a (List.mem_of_mem_drop (List.mem_of_mem_take ha))

lemma pySlice_ne_nil (l : List Char) (i j : ℕ) (h : i < l.length) (hij : i < j) :
    pySlice l i j ≠ [] := by
  have hlen : (pySlice l i j).length = min (j - i) (l.length - i) := by
    simp [pySlice]
  intro heq
  rw [heq] at hlen
  simp only [List.length_nil] at hlen
  rw [Nat.min_def] at hlen
  split_ifs at hlen <;> omega

lemma hexcode_to_rgb_hex6 (r g b : ℕ) (hr : r < 256) (hg : g < 256) (hb : b < 256) :
    hexcode_to_rgb
        (String.mk ('#' :: (toHex2 (r : ℤ) ++ toHex2 (g : ℤ) ++ toHex2 (b : ℤ)))) false =
      some (((r : ℤ) : ℚ), ((g : ℤ) : ℚ), ((b : ℤ) : ℚ)) := by
  have h1 : (toHexDigit (r / 16) == '#') = false := toHexDigit_ne_hash_fin ⟨r / 16, by omega⟩
  have hstrip :
      hexStrip (String.mk ('#' :: (toHex2 (r : ℤ) ++ toHex2 (g : ℤ) ++ toHex2 (b : ℤ)))) =
        toHex2 (r : ℤ) ++ toHex2 (g : ℤ) ++ toHex2 (b : ℤ) :=
    dropWhile_hash_cons _ _ h1
  have hfr : pyIntHex (toHex2 ((r : ℤ))) = some ((r : ℤ)) := pyIntHex_toHex2 ⟨r, hr⟩
  have hfg : pyIntHex (toHex2 ((g : ℤ))) = some ((g : ℤ)) := pyIntHex_toHex2 ⟨g, hg⟩
  have hfb : pyIntHex (toHex2 ((b : ℤ))) = some ((b : ℤ)) := pyIntHex_toHex2 ⟨b, hb⟩
  simp only [hexcode_to_rgb, hstrip]
  rw [show pySlice (toHex2 (r : ℤ) ++ toHex2 (g : ℤ) ++ toHex2 (b : ℤ)) 0 2 = toHex2 (r : ℤ)
        from rfl,
      show pySlice (toHex2 (r : ℤ) ++ toHex2 (g : ℤ) ++ toHex2 (b : ℤ)) 2 4 = toHex2 (g : ℤ)
        from rfl,
      show pySlice (toHex2 (r : ℤ) ++ toHex2 (g : ℤ) ++ toHex2 (b : ℤ)) 4 6 = toHex2 (b : ℤ)
        from rfl,
      hfr, hfg, hfb]
  rfl

/-! ## Claim theorems -/

/-- C1 (counterexample): `SetFromText` does not push the pre-mutation Palette
onto the undo stack: starting from palette `["#ff0000"]` with an empty undo
stack, `text_input_update` replaces the palette but leaves the stack empty, so
the pre-mutation palette is not on top of the stack afterwards. -/
theorem c1_counterexample :
    (text_input_update "#00ff00" ⟨["#ff0000"], []⟩).options = ["#00ff00"] ∧
    (text_input_update "#00ff00" ⟨["#ff0000"], []⟩).prevSelections = [] :=
  ⟨by with_unfolding_all rfl, by with_unfolding_all rfl⟩

/-- C1 (amended): the click (Add), Remove and Clear handlers each push the
pre-mutation Palette onto the undo stack before applying their change, while
`SetFromText` (`text_input_update`) mutates the Palette without touching the
undo stack. -/
theorem c1_push_discipline (s : AppState) (ds : Option Dataset) (x y : ℚ)
    (sel : List String) (raw : String) :
    (tap_update ds x y s).prevSelections = s.options :: s.prevSelections ∧
    (remove_update sel s).prevSelections = s.options :: s.prevSelections ∧
    (clear_update s).prevSelections = s.options :: s.prevSelections ∧
    (text_input_update raw s).prevSelections = s.prevSelections := by
  refine ⟨?_, rfl, rfl, rfl⟩
  rcases hs : sampleAt ds (pyRound x) (pyRound y) with _ | ⟨⟨r, g⟩, b⟩ <;>
    simp [tap_update, hs, update]

/-- C2: `undo_update` pops the undo stack without a guard; on an empty stack
the `pop(-1)` raises `IndexError` (modelled as `none`) instead of returning
normally with the Palette unchanged, and it fails exactly when the stack is
empty. -/
theorem c2_undo_on_empty_stack_errors (s : AppState) :
    undo_update s = none ↔ s.prevSelections = [] := by
  rcases s with ⟨opts, prevs⟩
  cases prevs <;> simp [undo_update]

/-- C3: for every state whose palette entries all pass the validity filter
(which holds for every reachable palette), a click-Add followed by Undo
restores the exact pre-Add state, and a Remove of any selected subset followed
by Undo restores the exact original state, order included. -/
theorem c3_mutation_then_undo (s : AppState) (ds : Option Dataset) (x y : ℚ)
    (sel : List String) (h : s.options.all validOpt = true) :
    undo_update (tap_update ds x y s) = some s ∧
    undo_update (remove_update sel s) = some s := by
  have hf : filterOptions s.options = s.options := filterOptions_eq_self _ h
  rcases s with ⟨opts, prevs⟩
  simp only at hf
  constructor
  · rcases hs : sampleAt ds (pyRound x) (pyRound y) with _ | ⟨⟨r, g⟩, b⟩ <;>
      simp [tap_update, hs, update, undo_update, hf]
  · simp [remove_update, update, undo_update, hf]

theorem c3_mutation_then_undo_witness :
    (["#ff0000", "#00ff00"].all validOpt = true) ∧
    undo_update (tap_update none 0 0 ⟨["#ff0000", "#00ff00"], []⟩) =
      some ⟨["#ff0000", "#00ff00"], []⟩ ∧
    undo_update (remove_update ["#ff0000"] ⟨["#ff0000", "#00ff00"], []⟩) =
      some ⟨["#ff0000", "#00ff00"], []⟩ :=
  ⟨by with_unfolding_all rfl,
   (c3_mutation_then_undo ⟨["#ff0000", "#00ff00"], []⟩ none 0 0 ["#ff0000"]
     (by with_unfolding_all rfl)).1,
   (c3_mutation_then_undo ⟨["#ff0000", "#00ff00"], []⟩ none 0 0 ["#ff0000"]
     (by with_unfolding_all rfl)).2⟩

/-- C4 (counterexample): the string `"#zzzzzz"` does not match
`#[0-9a-f]\x7b6\x7d`, yet feeding it through `text_input_update` puts it into
the Palette, because the code's filter only checks nonemptiness, length 7 and
the leading `#`. -/
theorem c4_counterexample :
    (text_input_update "#zzzzzz" ⟨[], []⟩).options = ["#zzzzzz"] ∧
    spec_hex_shape "#zzzzzz" = false :=
  ⟨by with_unfolding_all rfl, by with_unfolding_all rfl⟩

/-- C4 (amended): a string enters the Palette through `SetFromText` exactly
when it is one of the comma-separated, trimmed pieces of the input and passes
the code's filter — nonempty, length exactly 7, and starting with `#`; the six
trailing characters are not validated as hexadecimal digits. -/
theorem c4_palette_entry_filter (s : AppState) (raw : String) (h : String) :
    h ∈ (text_input_update raw s).options ↔
      h ∈ (raw.splitOn ",").map (fun color => color.trim) ∧ validOpt h = true := by
  simp [text_input_update, update, filterOptions, List.mem_filter]

/-- C5: when sampling the clicked pixel fails (no dataset, or coordinates
outside the grid), the exception is caught and the Palette is left exactly
unchanged. -/
theorem c5_failed_tap_preserves_palette (s : AppState) (ds : Option Dataset) (x y : ℚ)
    (h : sampleAt ds (pyRound x) (pyRound y) = none) :
    (tap_update ds x y s).options = s.options := by
  simp [tap_update, h]

theorem c5_failed_tap_preserves_palette_witness :
    sampleAt none (pyRound 0) (pyRound 0) = none ∧
    (tap_update none 0 0 ⟨["#abcdef"], []⟩).options = ["#abcdef"] :=
  ⟨by with_unfolding_all rfl,
   c5_failed_tap_preserves_palette ⟨["#abcdef"], []⟩ none 0 0 (by with_unfolding_all rfl)⟩

/-- C9: the interpolated colormap of the two-anchor palette
`["#000000", "#ffffff"]` with requested count 3 is exactly
`["#000000", "#7f7f7f", "#ffffff"]` — the middle entry is the midpoint gray
(255/2 = 127.5 truncated to 127 = 0x7f by the codec). -/
theorem c9_two_anchor_interpolation :
    slider_interp_colors ["#000000", "#ffffff"] 3 = ["#000000", "#7f7f7f", "#ffffff"] := by
  with_unfolding_all rfl

/-- C10: a pixel click pushes a snapshot of the current palette onto the undo
stack unconditionally, before sampling is attempted, so the stack grows by one
even when sampling fails and the Palette itself is unchanged. -/
theorem c10_tap_pushes_unconditionally (s : AppState) (ds : Option Dataset) (x y : ℚ) :
    (tap_update ds x y s).prevSelections = s.options :: s.prevSelections ∧
    (tap_update ds x y s).prevSelections.length = s.prevSelections.length + 1 ∧
    (sampleAt ds (pyRound x) (pyRound y) = none → (tap_update ds x y s).options = s.options) := by
  refine ⟨?_, ?_, fun h => ?_⟩
  · rcases hs : sampleAt ds (pyRound x) (pyRound y) with _ | ⟨⟨r, g⟩, b⟩ <;>
      simp [tap_update, hs, update]
  · rcases hs : sampleAt ds (pyRound x) (pyRound y) with _ | ⟨⟨r, g⟩, b⟩ <;>
      simp [tap_update, hs, update]
  · simp [tap_update, h]

/-- C6: for all integer triples in [0,255]^3, decoding the encoded hexcode
round-trips exactly: `hexcode_to_rgb (rgb_to_hexcode r g b) = (r, g, b)`. -/
theorem c6_codec_roundtrip (r g b : ℕ) (hr : r ≤ 255) (hg : g ≤ 255) (hb : b ≤ 255) :
    hexcode_to_rgb (rgb_to_hexcode (r : ℚ) (g : ℚ) (b : ℚ) false) false =
      some ((r : ℚ), (g : ℚ), (b : ℚ)) := by
  have hstr : rgb_to_hexcode (r : ℚ) (g : ℚ) (b : ℚ) false =
      String.mk ('#' :: (toHex2 ((r : ℤ)) ++ toHex2 ((g : ℤ)) ++ toHex2 ((b : ℤ)))) := by
    simp [rgb_to_hexcode, clamp_natCast r hr, clamp_natCast g hg, clamp_natCast b hb]
  rw [hstr, hexcode_to_rgb_hex6 r g b (by omega) (by omega) (by omega)]
  push_cast
  rfl

theorem c6_codec_roundtrip_witness :
    (18 : ℕ) ≤ 255 ∧ (52 : ℕ) ≤ 255 ∧ (86 : ℕ) ≤ 255 ∧
    hexcode_to_rgb (rgb_to_hexcode ((18 : ℕ) : ℚ) ((52 : ℕ) : ℚ) ((86 : ℕ) : ℚ) false) false =
      some (((18 : ℕ) : ℚ), ((52 : ℕ) : ℚ), ((86 : ℕ) : ℚ)) :=
  ⟨by omega, by omega, by omega,
   c6_codec_roundtrip 18 52 86 (by omega) (by omega) (by omega)⟩

/-- C7 (counterexample): `clamp` truncates rather than rounding to nearest:
at channel value 3/4 the nearest integer is 1, but the code encodes 0, so
`rgb_to_hexcode (3/4) 0 0` is `"#000000"`, not `"#010000"`. -/
theorem c7_counterexample :
    clamp (3 / 4) = 0 ∧ round ((3 : ℚ) / 4) = 1 ∧
    rgb_to_hexcode (3 / 4) 0 0 false = "#000000" :=
  ⟨by with_unfolding_all rfl, by rw [round_eq]; norm_num, by with_unfolding_all rfl⟩

/-- C7 (amended): `rgb_to_hexcode` clamps each channel independently into
[0, 255] and *truncates* it toward zero (floor, on the clamped nonnegative
value) rather than rounding to nearest, then formats it as two lowercase hex
digits (a 7-character string); in the optional normalized mode the channels
are scaled by 255 before clamping and truncating. -/
theorem c7_clamp_clamps_and_truncates :
    (∀ x : ℚ, 0 ≤ clamp x ∧ clamp x ≤ 255) ∧
    (∀ x : ℚ, 0 ≤ x → x ≤ 255 → clamp x = ⌊x⌋) ∧
    (∀ r g b : ℚ, rgb_to_hexcode r g b true = rgb_to_hexcode (r * 255) (g * 255) (b * 255) false) ∧
    (∀ r g b : ℚ, (rgb_to_hexcode r g b false).length = 7) := by
  refine ⟨fun x => ?_, fun x h0 h255 => ?_, fun r g b => ?_, fun r g b => ?_⟩
  · have hm0 : (0 : ℚ) ≤ max 0 (min x 255) := le_max_left _ _
    have hm255 : max 0 (min x 255) ≤ 255 := max_le (by norm_num) (min_le_right _ _)
    unfold clamp pyTrunc
    rw [if_pos hm0]
    refine ⟨Int.le_floor.mpr (by exact_mod_cast hm0), ?_⟩
    calc ⌊max 0 (min x 255)⌋ ≤ ⌊(255 : ℚ)⌋ := Int.floor_le_floor hm255
      _ = 255 := by norm_num
  · unfold clamp pyTrunc
    rw [min_eq_left h255, max_eq_right h0, if_pos h0]
  · simp [rgb_to_hexcode]
  · simp [rgb_to_hexcode, String.length, toHex2]

theorem c7_clamp_clamps_and_truncates_witness :
    (0 : ℚ) ≤ 5 / 2 ∧ (5 : ℚ) / 2 ≤ 255 ∧ clamp (5 / 2) = ⌊(5 : ℚ) / 2⌋ :=
  ⟨by norm_num, by norm_num,
   c7_clamp_clamps_and_truncates.2.1 (5 / 2) (by norm_num) (by norm_num)⟩

/-- C8 (counterexample): `hexcode_to_rgb` does not fail on every input whose
`#`-stripped form is not exactly 6 hex digits: `"#abcde"` strips to the
5-digit `"abcde"`, yet the call succeeds, returning `(171, 205, 14)` — the
third slice `code[4:6]` is the single digit `"e"`, which still parses. -/
theorem c8_counterexample :
    hexcode_to_rgb "#abcde" false = some (171, 205, 14) ∧
    (hexStrip "#abcde").length = 5 :=
  ⟨by with_unfolding_all rfl, by with_unfolding_all rfl⟩

/-- C8 (amended): `hexcode_to_rgb` strips the leading `#` characters and
parses the three 2-character slices `code[0:2]`, `code[2:4]`, `code[4:6]`; on
an all-hex-digit stripped string it succeeds if and only if at least 5 digits
remain (not exactly 6: a 5-digit string's last slice is a single digit and
still parses, and digits beyond the sixth are ignored).  The normalized mode
returns the plain channels divided by 255 and rounded to 4 decimal places. -/
theorem c8_parse_characterization :
    (∀ (hexcode : String) (norm : Bool),
        (hexStrip hexcode).all isHexDigitChar = true →
        ((hexcode_to_rgb hexcode norm).isSome = true ↔ 5 ≤ (hexStrip hexcode).length)) ∧
    (∀ hexcode : String,
        hexcode_to_rgb hexcode true =
          (hexcode_to_rgb hexcode false).map
            (fun v => (pyRound4 (v.1 / 255), pyRound4 (v.2.1 / 255), pyRound4 (v.2.2 / 255)))) := by
  constructor
  · intro hexcode norm hall
    obtain ⟨code, hc⟩ : ∃ code, hexStrip hexcode = code := ⟨_, rfl⟩
    rw [hc] at hall ⊢
    simp only [hexcode_to_rgb, hc]
    constructor
    · intro hsome
      by_contra hlt
      push_neg at hlt
      have h3 : pySlice code 4 6 = [] := by
        unfold pySlice
        rw [List.drop_eq_nil_iff.mpr (by omega), List.take_nil]
      rw [h3, pyIntHex_nil] at hsome
      rcases h1 : pyIntHex (pySlice code 0 2) with _ | v1 <;>
        rcases h2 : pyIntHex (pySlice code 2 4) with _ | v2 <;>
          simp [h1, h2] at hsome
    · intro h5
      have hs1 := pyIntHex_hex_isSome _ (pySlice_all_hex code 0 2 hall)
        (pySlice_ne_nil code 0 2 (by omega) (by omega))
      have hs2 := pyIntHex_hex_isSome _ (pySlice_all_hex code 2 4 hall)
        (pySlice_ne_nil code 2 4 (by omega) (by omega))
      have hs3 := pyIntHex_hex_isSome _ (pySlice_all_hex code 4 6 hall)
        (pySlice_ne_nil code 4 6 (by omega) (by omega))
      obtain ⟨v1, hv1⟩ := Option.isSome_iff_exists.mp hs1
      obtain ⟨v2, hv2⟩ := Option.isSome_iff_exists.mp hs2
      obtain ⟨v3, hv3⟩ := Option.isSome_iff_exists.mp hs3
      rw [hv1, hv2, hv3]
      cases norm <;> simp
  · intro hexcode
    simp only [hexcode_to_rgb]
    rcases h1 : pyIntHex (pySlice (hexStrip hexcode) 0 2) with _ | v1 <;>
      rcases h2 : pyIntHex (pySlice (hexStrip hexcode) 2 4) with _ | v2 <;>
        rcases h3 : pyIntHex (pySlice (hexStrip hexcode) 4 6) with _ | v3 <;>
          simp

theorem c8_parse_characterization_witness :
    ((hexStrip "#abcde").all isHexDigitChar = true) ∧
    (hexcode_to_rgb "#abcde" false).isSome = true :=
  ⟨by with_unfolding_all rfl,
   (c8_parse_characterization.1 "#abcde" false (by with_unfolding_all rfl)).mpr
     (Nat.le_of_eq (by with_unfolding_all rfl))⟩

theorem c10_tap_pushes_unconditionally_witness :
    sampleAt (some ⟨1, 1, fun _ _ => 1, fun _ _ => 0, fun _ _ => 0⟩) (pyRound 5) (pyRound 0) =
      none ∧
    (tap_update (some ⟨1, 1, fun _ _ => 1, fun _ _ => 0, fun _ _ => 0⟩) 5 0
      ⟨["#ff0000"], []⟩).prevSelections = [["#ff0000"]] ∧
    (tap_update (some ⟨1, 1, fun _ _ => 1, fun _ _ => 0, fun _ _ => 0⟩) 5 0
      ⟨["#ff0000"], []⟩).options = ["#ff0000"] :=
  ⟨by with_unfolding_all rfl,
   (c10_tap_pushes_unconditionally ⟨["#ff0000"], []⟩
     (some ⟨1, 1, fun _ _ => 1, fun _ _ => 0, fun _ _ => 0⟩) 5 0).1,
   (c10_tap_pushes_unconditionally ⟨["#ff0000"], []⟩
     (some ⟨1, 1, fun _ _ => 1, fun _ _ => 0, fun _ _ => 0⟩) 5 0).2.2
     (by with_unfolding_all rfl)⟩
